import Mathlib

/-!
Verification of the DIG.EXCAVATION simulation core.

This file gives a shallow embedding, in Lean 4, of the deterministic
simulation engine of the DIG.EXCAVATION repository: the node/tree data
model (`world/node.py`), the resource ledger (`systems/resource_manager.py`),
the filesystem view (`systems/filesystem.py`), the artifact registry
(`systems/artifact.py`), the daemon system (`systems/daemon.py`), the event
queue (`systems/event_queue.py`) and the procedural site generator
(`world/site_generator.py`).  Python floats are modelled by rationals,
in-place mutation by explicit state passing, raised exceptions by
`Except`/`Option` results, and events posted on the global `event_queue`
singleton by explicit event lists returned from each operation.
Theorems about the spec's claims follow the definitions.
-/

namespace DigSim

/-! ## world/node.py -/

/-- `NodeType` from `world/node.py`: the three kinds of node. -/
inductive NodeType where
  | DIRECTORY
  | FILE
  | DEBRIS
deriving DecidableEq, Repr

/-- `NodeVisibility` from `world/node.py`. -/
inductive NodeVisibility where
  | HIDDEN
  | DETECTED
  | REVEALED
deriving DecidableEq, Repr

/-- `Node` dataclass from `world/node.py`.  The `metadata` dict is modelled
as an association list of string pairs (only string/flag values occur in the
source). -/
structure Node where
  name         : String
  nodeType     : NodeType
  nodeId       : String
  parentId     : Option String := none
  childrenIds  : List String := []
  corruption   : ℚ := 0
  visibility   : NodeVisibility := NodeVisibility.HIDDEN
  artifactId   : Option String := none
  metadata     : List (String × String) := []
deriving DecidableEq, Repr

namespace Node

/-- `Node.is_root`: true when `parent_id` is `None`. -/
def is_root (n : Node) : Bool := n.parentId.isNone

/-- `Node.is_directory`. -/
def is_directory (n : Node) : Bool := n.nodeType = NodeType.DIRECTORY

/-- `Node.is_file`. -/
def is_file (n : Node) : Bool := n.nodeType = NodeType.FILE

/-- `Node.is_debris`. -/
def is_debris (n : Node) : Bool := n.nodeType = NodeType.DEBRIS

/-- `Node.has_artifact`: true when `artifact_id` is set. -/
def has_artifact (n : Node) : Bool := n.artifactId.isSome

/-- `Node.add_child`: append `child_id` if not already present (the
non-directory `ValueError` branch is never taken by the callers embedded
here, which only add children to directories). -/
def add_child (n : Node) (childId : String) : Node :=
  if childId ∈ n.childrenIds then n
  else { n with childrenIds := n.childrenIds ++ [childId] }

/-- `Node.apply_corruption`: increase corruption by `delta`, clamped to
`[0.0, 1.0]`. -/
def apply_corruption (n : Node) (delta : ℚ) : Node :=
  { n with corruption := max 0 (min 1 (n.corruption + delta)) }

end Node

/-! ## Events

Each system posts events on the module-level `event_queue` singleton via
`post_immediate(EventType.X, payload)`.  The embedding returns the posted
events explicitly; `GameEvent` is the tagged union of the payload shapes
that actually occur in the source. -/

/-- The events posted by the embedded systems, one constructor per
`EventType`/payload shape used in the source. -/
inductive GameEvent where
  | resourceChanged (resource : String) (delta current maximum ratio : ℚ)
      (source : String)
  | resourceDepleted (resource : String) (source : String)
  | nodeRevealed (nodeId name : String) (visibility : NodeVisibility)
  | nodeCorrupted (nodeId name : String) (corruption threshold : ℚ)
  | artifactFound (nodeId : String) (artifactId : Option String) (name : String)
  | scanComplete (nodeId name : String) (success : Bool)
  | carveComplete (nodeId name : String) (success : Bool) (reason : Option String)
  | reconstructEndFail (artifactId : String) (reason : String)
  | reconstructEndOk (artifactId : String) (condition sellValue : ℚ) (name : String)
  | logEntryAdded (artifactId name : String) (earned : ℚ) (description : String)
  | daemonSpotted (daemonId name nodeId : String)
  | daemonAlert (daemonId name nodeId : String)
  | daemonPacified (daemonId name : String)
deriving DecidableEq, Repr

/-! ## systems/resource_manager.py -/

/-- `Resource` enum from `systems/resource_manager.py`. -/
inductive Resource where
  | POWER
  | MEMORY
  | ENERGY
deriving DecidableEq, Repr

/-- `Resource.name` (the Python enum member name, used in event payloads). -/
def Resource.enumName : Resource → String
  | .POWER => "POWER"
  | .MEMORY => "MEMORY"
  | .ENERGY => "ENERGY"

/-- `ResourceSlot` dataclass: current and maximum value of one resource. -/
structure ResourceSlot where
  current : ℚ
  maximum : ℚ
deriving DecidableEq, Repr

namespace ResourceSlot

/-- `ResourceSlot.is_depleted`: current has reached zero. -/
def is_depleted (s : ResourceSlot) : Bool := s.current ≤ 0

/-- `ResourceSlot.ratio`: current as a fraction of maximum, in `[0,1]`
(`0` when the maximum is not positive). -/
def ratio (s : ResourceSlot) : ℚ :=
  if s.maximum ≤ 0 then 0 else max 0 (min 1 (s.current / s.maximum))

end ResourceSlot

/-- `ResourceManager` state: the three slots keyed by `Resource`, plus the
passive energy drain. -/
structure ResourceManager where
  power       : ResourceSlot
  memory      : ResourceSlot
  energy      : ResourceSlot
  energyDrain : ℚ
deriving DecidableEq, Repr

namespace ResourceManager

/-- `ResourceManager.__init__` with the source's default arguments
(`power=100`, `memory=50`, `energy=80`, `energy_drain=1`). -/
def init (power : ℚ := 100) (memory : ℚ := 50) (energy : ℚ := 80)
    (energyDrain : ℚ := 1) : ResourceManager :=
  { power  := { current := power,  maximum := power }
    memory := { current := memory, maximum := memory }
    energy := { current := energy, maximum := energy }
    energyDrain := energyDrain }

/-- `self._slots[resource]` lookup. -/
def slot (rm : ResourceManager) : Resource → ResourceSlot
  | .POWER => rm.power
  | .MEMORY => rm.memory
  | .ENERGY => rm.energy

/-- Write back one slot of the `_slots` dict. -/
def setSlot (rm : ResourceManager) : Resource → ResourceSlot → ResourceManager
  | .POWER, s => { rm with power := s }
  | .MEMORY, s => { rm with memory := s }
  | .ENERGY, s => { rm with energy := s }

/-- `ResourceManager.current`. -/
def current (rm : ResourceManager) (r : Resource) : ℚ := (rm.slot r).current

/-- `ResourceManager.maximum`. -/
def maximum (rm : ResourceManager) (r : Resource) : ℚ := (rm.slot r).maximum

/-- `ResourceManager.ratio`. -/
def ratio (rm : ResourceManager) (r : Resource) : ℚ := (rm.slot r).ratio

/-- `ResourceManager.can_afford`. -/
def can_afford (rm : ResourceManager) (r : Resource) (amount : ℚ) : Bool :=
  (rm.slot r).current ≥ amount

/-- `ResourceManager._post_changed`: the `RESOURCE_CHANGED` event posted
after a successful mutation, carrying the resulting slot values and ratio. -/
def post_changed (rm : ResourceManager) (r : Resource) (delta : ℚ)
    (source : String) : GameEvent :=
  GameEvent.resourceChanged r.enumName delta (rm.slot r).current
    (rm.slot r).maximum (rm.slot r).ratio source

/-- Body of `ResourceManager.consume` after the non-negativity guard
(`amount < 0` raises `ValueError` in the source; see `consume`).  Returns
the success flag, the new state and the posted events. -/
def consumeOk (rm : ResourceManager) (r : Resource) (amount : ℚ)
    (source : String) : Bool × ResourceManager × List GameEvent :=
  let s := rm.slot r
  if s.current < amount then
    (false, rm, [])
  else
    let s2 : ResourceSlot := { s with current := s.current - amount }
    let rm2 := rm.setSlot r s2
    let evs := [rm2.post_changed r (-amount) source]
    if s2.is_depleted then
      (true, rm2, evs ++ [GameEvent.resourceDepleted r.enumName source])
    else
      (true, rm2, evs)

/-- `ResourceManager.consume`: raises `ValueError` on a negative amount,
otherwise behaves as `consumeOk`. -/
def consume (rm : ResourceManager) (r : Resource) (amount : ℚ)
    (source : String) :
    Except String (Bool × ResourceManager × List GameEvent) :=
  if amount < 0 then .error "consume() amount must be non-negative"
  else .ok (rm.consumeOk r amount source)

/-- Body of `ResourceManager.restore` after the non-negativity guard:
adds `min(amount, maximum - current)` and posts `RESOURCE_CHANGED` only
when the actual gain is positive. -/
def restoreOk (rm : ResourceManager) (r : Resource) (amount : ℚ)
    (source : String) : ResourceManager × List GameEvent :=
  let s := rm.slot r
  let actualGain := min amount (s.maximum - s.current)
  let s2 : ResourceSlot := { s with current := s.current + actualGain }
  let rm2 := rm.setSlot r s2
  if actualGain > 0 then (rm2, [rm2.post_changed r actualGain source])
  else (rm2, [])

/-- `ResourceManager.restore`: raises `ValueError` on a negative amount,
otherwise behaves as `restoreOk`. -/
def restore (rm : ResourceManager) (r : Resource) (amount : ℚ)
    (source : String) : Except String (ResourceManager × List GameEvent) :=
  if amount < 0 then .error "restore() amount must be non-negative"
  else .ok (rm.restoreOk r amount source)

/-- `ResourceManager.set_maximum`: raises on a non-positive maximum;
otherwise sets the maximum, clamps current down to it, and always posts
`RESOURCE_CHANGED` with delta `0` from source `"Upgrade"`. -/
def set_maximum (rm : ResourceManager) (r : Resource) (newMax : ℚ) :
    Except String (ResourceManager × List GameEvent) :=
  if newMax ≤ 0 then .error "Maximum must be positive"
  else
    let s := rm.slot r
    let s2 : ResourceSlot := { maximum := newMax, current := min s.current newMax }
    let rm2 := rm.setSlot r s2
    .ok (rm2, [rm2.post_changed r 0 "Upgrade"])

/-- `ResourceManager.tick`: passive energy drain via `consume` (the drain
is non-negative in every construction in the repository; `tickOk` takes the
`consumeOk` path directly). -/
def tickOk (rm : ResourceManager) : ResourceManager × List GameEvent :=
  let out := rm.consumeOk .ENERGY rm.energyDrain "PassiveDrain"
  (out.2.1, out.2.2)

end ResourceManager

/-! ## systems/filesystem.py -/

/-- `_CORRUPTION_TICK = 0.02`: corruption added to every visible node per
turn. -/
def CORRUPTION_TICK : ℚ := 2 / 100

/-- `_CARVE_FAIL_THRESHOLD = 0.8`. -/
def CARVE_FAIL_THRESHOLD : ℚ := 8 / 10

/-- `Filesystem` state: the flat node registry (a list in dict-insertion
order, keyed by `node_id`), the root id and the current directory id. -/
structure Filesystem where
  nodes  : List Node
  rootId : String
  cwdId  : String
deriving DecidableEq, Repr

namespace Filesystem

/-- `self._nodes.get(node_id)` / `Filesystem.get_node`. -/
def get_node (fs : Filesystem) (nodeId : String) : Option Node :=
  fs.nodes.find? (fun n => n.nodeId = nodeId)

/-- Replace the node with the given id (Python mutates the dict entry in
place; ids are the dict keys, hence unique). -/
def setNode (fs : Filesystem) (nodeId : String) (f : Node → Node) : Filesystem :=
  { fs with nodes := fs.nodes.map (fun n => if n.nodeId = nodeId then f n else n) }

/-- `Filesystem._child_by_name`: first child of `parent` (in
`children_ids` order, skipping ids missing from the registry) whose name
matches. -/
def child_by_name (fs : Filesystem) (name : String) (parent : Node) : Option Node :=
  (parent.childrenIds.filterMap fs.get_node).find? (fun c => c.name = name)

/-- `Filesystem.change_directory`.  The first component is the raised
`FilesystemError` (if any); the second is the filesystem state when the
call returns or the exception escapes.  Every `raise` in the source occurs
before the single mutation `self._cwd_id = target.node_id`. -/
def change_directory (fs : Filesystem) (name : String) :
    Option String × Filesystem :=
  match fs.get_node fs.cwdId with
  | none => (some "Node id not found in filesystem.", fs)
  | some cwd =>
    if name = ".." then
      if cwd.is_root then (some "Already at root — cannot go up.", fs)
      else
        match cwd.parentId.bind fs.get_node with
        | none => (some "Node id not found in filesystem.", fs)
        | some target => (none, { fs with cwdId := target.nodeId })
    else
      match fs.child_by_name name cwd with
      | none => (some "No such directory", fs)
      | some target =>
        if target.visibility = NodeVisibility.HIDDEN then
          (some "not visible. Run SCAN first.", fs)
        else if ¬ target.is_directory then
          (some "is not a directory.", fs)
        else (none, { fs with cwdId := target.nodeId })

/-- One visibility step of `Filesystem.scan`: HIDDEN becomes DETECTED,
DETECTED becomes REVEALED, REVEALED stays. -/
def stepVisibility : NodeVisibility → NodeVisibility
  | .HIDDEN => .DETECTED
  | .DETECTED => .REVEALED
  | .REVEALED => .REVEALED

/-- The events posted by `Filesystem.scan` for a target whose pre-scan
state was `t`: `NODE_REVEALED` when visibility changed, `ARTIFACT_FOUND`
when the post-scan visibility is REVEALED on a FILE with an artifact, and
`SCAN_COMPLETE` always. -/
def scanEvents (t : Node) : List GameEvent :=
  let vis2 := stepVisibility t.visibility
  (if vis2 ≠ t.visibility then
      [GameEvent.nodeRevealed t.nodeId t.name vis2]
    else []) ++
  (if vis2 = NodeVisibility.REVEALED ∧ t.is_file ∧ t.has_artifact then
      [GameEvent.artifactFound t.nodeId t.artifactId t.name]
    else []) ++
  [GameEvent.scanComplete t.nodeId t.name true]

/-- `Filesystem.scan`: advance the named child's visibility one step and
post the events of `scanEvents`.  Raises `FilesystemError` when the name
does not resolve to a child of the cwd. -/
def scan (fs : Filesystem) (name : String) :
    Except String (Filesystem × List GameEvent) :=
  match fs.get_node fs.cwdId with
  | none => .error "Node id not found in filesystem."
  | some cwd =>
    match fs.child_by_name name cwd with
    | none => .error "SCAN: no target named in current directory."
    | some target =>
      .ok (fs.setNode target.nodeId
            (fun n => { n with visibility := stepVisibility n.visibility }),
          scanEvents target)

/-- `Filesystem.carve`: convert a visible DEBRIS child to a REVEALED FILE
unless its corruption is at or above `_CARVE_FAIL_THRESHOLD`. -/
def carve (fs : Filesystem) (name : String) :
    Except String (Filesystem × List GameEvent) :=
  match fs.get_node fs.cwdId with
  | none => .error "Node id not found in filesystem."
  | some cwd =>
    match fs.child_by_name name cwd with
    | none => .error "CARVE: no target named in current directory."
    | some target =>
      if target.visibility = NodeVisibility.HIDDEN then
        .error "CARVE: not visible. Run SCAN first."
      else if ¬ target.is_debris then
        .error "CARVE: not DEBRIS."
      else if target.corruption ≥ CARVE_FAIL_THRESHOLD then
        .ok (fs, [GameEvent.carveComplete target.nodeId target.name false
                    (some "corruption_too_high")])
      else
        .ok (fs.setNode target.nodeId
              (fun n => { n with nodeType := NodeType.FILE,
                                 visibility := NodeVisibility.REVEALED }),
            [GameEvent.carveComplete target.nodeId target.name true none])

/-- The threshold scan of `Filesystem.tick`: the loop over
`thresholds = (0.25, 0.50, 0.75, 1.0)` with `if before < t <= after`
and `break` after the first hit. -/
def firstCrossed (before after : ℚ) : Option ℚ :=
  if before < 1/4 ∧ 1/4 ≤ after then some (1/4)
  else if before < 1/2 ∧ 1/2 ≤ after then some (1/2)
  else if before < 3/4 ∧ 3/4 ≤ after then some (3/4)
  else if before < 1 ∧ 1 ≤ after then some 1
  else none

/-- Per-node body of `Filesystem.tick`: HIDDEN nodes are skipped; every
other node gains `_CORRUPTION_TICK` corruption (clamped by
`apply_corruption`) and posts at most one `NODE_CORRUPTED` event, for the
first threshold crossed. -/
def tickNode (n : Node) : Node × List GameEvent :=
  if n.visibility = NodeVisibility.HIDDEN then (n, [])
  else
    let n2 := n.apply_corruption CORRUPTION_TICK
    match firstCrossed n.corruption n2.corruption with
    | some t => (n2, [GameEvent.nodeCorrupted n.nodeId n.name n2.corruption t])
    | none => (n2, [])

/-- `Filesystem.tick`: apply `tickNode` to every node of the registry in
order, concatenating the posted events. -/
def tick (fs : Filesystem) : Filesystem × List GameEvent :=
  ({ fs with nodes := fs.nodes.map (fun n => (tickNode n).1) },
   fs.nodes.flatMap (fun n => (tickNode n).2))

end Filesystem

/-! ## systems/artifact.py -/

/-- `ArtifactState` lifecycle enum. -/
inductive ArtifactState where
  | UNDISCOVERED
  | FOUND
  | COLLECTED
  | SOLD
deriving DecidableEq, Repr

/-- `ArtifactRarity` enum. -/
inductive ArtifactRarity where
  | COMMON
  | UNCOMMON
  | RARE
  | LEGENDARY
deriving DecidableEq, Repr

/-- `ArtifactRarity.value_multiplier`. -/
def ArtifactRarity.value_multiplier : ArtifactRarity → ℚ
  | .COMMON => 1
  | .UNCOMMON => 5/2
  | .RARE => 6
  | .LEGENDARY => 15

/-- Python's `round` on rationals: nearest integer, ties to even
(banker's rounding, the semantics of the built-in `round`). -/
def pyRoundInt (q : ℚ) : ℤ :=
  let n := ⌊q⌋
  let f := q - n
  if f < 1/2 then n
  else if 1/2 < f then n + 1
  else if n % 2 = 0 then n else n + 1

/-- Python's `round(x, 1)`: rounding to one decimal place. -/
def pyRound1 (q : ℚ) : ℚ := (pyRoundInt (q * 10) : ℚ) / 10

/-- `Artifact` dataclass from `systems/artifact.py`. -/
structure Artifact where
  artifactId  : String
  name        : String
  description : String := ""
  nodeId      : String := ""
  rarity      : ArtifactRarity := ArtifactRarity.COMMON
  state       : ArtifactState := ArtifactState.UNDISCOVERED
  condition   : ℚ := 1
  sellValue   : ℚ := 0
deriving DecidableEq, Repr

/-- `Artifact.MEMORY_COST = 10.0`: memory slots consumed per collected
artifact. -/
def MEMORY_COST : ℚ := 10

/-- `ArtifactSystem._BASE_VALUE = 50.0`. -/
def BASE_VALUE : ℚ := 50

/-- `ArtifactSystem` state: the owned `ResourceManager`, the artifact
registry (a list in dict-insertion order, keyed by `artifact_id`) and the
running currency total. -/
structure ArtifactSystem where
  rm        : ResourceManager
  artifacts : List Artifact
  currency  : ℚ := 0
deriving DecidableEq, Repr

namespace ArtifactSystem

/-- `self._artifacts.get(artifact_id)`. -/
def get (as : ArtifactSystem) (artifactId : String) : Option Artifact :=
  as.artifacts.find? (fun a => a.artifactId = artifactId)

/-- Replace the artifact with the given id (dict keys are unique). -/
def setArtifact (as : ArtifactSystem) (artifactId : String)
    (f : Artifact → Artifact) : ArtifactSystem :=
  { as with artifacts :=
      as.artifacts.map (fun a => if a.artifactId = artifactId then f a else a) }

/-- `ArtifactSystem.register`: idempotent insert (an already-registered id
is skipped with a warning). -/
def register (as : ArtifactSystem) (a : Artifact) : ArtifactSystem :=
  if (as.get a.artifactId).isSome then as
  else { as with artifacts := as.artifacts ++ [a] }

/-- `ArtifactSystem.mark_found`: UNDISCOVERED to FOUND only; any other
state (or an unknown id) is a no-op. -/
def mark_found (as : ArtifactSystem) (artifactId : String) : ArtifactSystem :=
  match as.get artifactId with
  | none => as
  | some a =>
    if a.state ≠ ArtifactState.UNDISCOVERED then as
    else as.setArtifact artifactId (fun x => { x with state := ArtifactState.FOUND })

/-- `ArtifactSystem._compute_value`: base value times rarity multiplier
times condition, rounded to one decimal place. -/
def compute_value (a : Artifact) : ℚ :=
  pyRound1 (BASE_VALUE * a.rarity.value_multiplier * a.condition)

/-- `ArtifactSystem.collect`: FOUND to COLLECTED, gated by a memory-gauge
consume of `MEMORY_COST`.  Returns the success flag, the new state and the
posted events (including those posted by `ResourceManager.consume`). -/
def collect (as : ArtifactSystem) (artifactId : String)
    (nodeCorruption : ℚ := 0) : Bool × ArtifactSystem × List GameEvent :=
  match as.get artifactId with
  | none => (false, as, [])
  | some a =>
    if a.state ≠ ArtifactState.FOUND then (false, as, [])
    else
      let c := as.rm.consumeOk Resource.MEMORY MEMORY_COST "ArtifactSystem"
      let as2 := { as with rm := c.2.1 }
      if ¬ c.1 then
        (false, as2,
         c.2.2 ++ [GameEvent.reconstructEndFail artifactId "insufficient_memory"])
      else
        let condition := max (1/100) (1 - nodeCorruption)
        let sellValue := compute_value { a with condition := condition }
        let as3 := as2.setArtifact artifactId (fun x =>
          { x with condition := condition, sellValue := sellValue,
                   state := ArtifactState.COLLECTED })
        (true, as3,
         c.2.2 ++ [GameEvent.reconstructEndOk artifactId condition sellValue a.name])

/-- `ArtifactSystem.sell`: COLLECTED to SOLD; adds the sell value to the
currency, zeroes it on the artifact, frees the memory cost via
`ResourceManager.restore`, posts `LOG_ENTRY_ADDED`.  Any other state (or
an unknown id) returns `0.0` with no mutation. -/
def sell (as : ArtifactSystem) (artifactId : String) :
    ℚ × ArtifactSystem × List GameEvent :=
  match as.get artifactId with
  | none => (0, as, [])
  | some a =>
    if a.state ≠ ArtifactState.COLLECTED then (0, as, [])
    else
      let earned := a.sellValue
      let as2 := as.setArtifact artifactId (fun x =>
        { x with state := ArtifactState.SOLD, sellValue := 0 })
      let as3 := { as2 with currency := as2.currency + earned }
      let r := as3.rm.restoreOk Resource.MEMORY MEMORY_COST "ArtifactSystem"
      let as4 := { as3 with rm := r.1 }
      (earned, as4,
       r.2 ++ [GameEvent.logEntryAdded artifactId a.name earned a.description])

end ArtifactSystem

/-! ## systems/daemon.py -/

/-- `DaemonPersonality` enum. -/
inductive DaemonPersonality where
  | AGGRESSIVE
  | PARANOID
  | SLEEPY
deriving DecidableEq, Repr

/-- `AlertState` enum. -/
inductive AlertState where
  | IDLE
  | SUSPICIOUS
  | ALERT
deriving DecidableEq, Repr

/-- `Daemon` dataclass. -/
structure Daemon where
  name            : String
  personality     : DaemonPersonality
  nodeId          : String
  detectionRadius : ℕ := 2
  alertState      : AlertState := AlertState.IDLE
  alertLevel      : ℚ := 0
  moveCooldown    : ℕ := 1
  turnsSinceMove  : ℕ := 0
  pacified        : Bool := false
  daemonId        : String := ""
deriving DecidableEq, Repr

/-- `Daemon._SUSPICIOUS_THRESHOLD = 0.4`. -/
def SUSPICIOUS_THRESHOLD : ℚ := 2/5

/-- `Daemon._ALERT_THRESHOLD = 0.75`. -/
def ALERT_THRESHOLD : ℚ := 3/4

/-- The alert-state classification applied at the end of
`DaemonSystem._update_alert`: ALERT at or above `0.75`, SUSPICIOUS at or
above `0.4`, IDLE otherwise. -/
def alertStateOf (level : ℚ) : AlertState :=
  if level ≥ ALERT_THRESHOLD then AlertState.ALERT
  else if level ≥ SUSPICIOUS_THRESHOLD then AlertState.SUSPICIOUS
  else AlertState.IDLE

/-- `DaemonSystem` class constants. -/
def ALERT_GAIN_NEAR : ℚ := 1/5
def ALERT_GAIN_NOISE : ℚ := 1/10
def ALERT_DECAY : ℚ := 1/20
def CONTACT_DRAIN : ℚ := 10
def DAEMON_CORRUPTION : ℚ := 1/20

/-- The BFS sentinel distance returned for unreachable pairs. -/
def UNREACHABLE : ℕ := 999

/-- `DaemonSystem` state.  The node registry is shared with the
`Filesystem` (the same flat dict); the internal `random.Random` is
modelled as an abstract stream of draws, each patrol `choice` consuming
one natural number used modulo the neighbour count. -/
structure DaemonSystem where
  rm      : ResourceManager
  nodes   : List Node
  daemons : List Daemon
  rng     : List ℕ
deriving DecidableEq, Repr

namespace DaemonSystem

/-- Node lookup in the shared registry. -/
def getNode (nodes : List Node) (nodeId : String) : Option Node :=
  nodes.find? (fun n => n.nodeId = nodeId)

/-- `DaemonSystem._neighbours`: children then parent, filtered to ids
present in the registry. -/
def neighbours (nodes : List Node) (nodeId : String) : List String :=
  match getNode nodes nodeId with
  | none => []
  | some n =>
    let adjacent := n.childrenIds ++ (match n.parentId with
      | some pid => [pid]
      | none => [])
    adjacent.filter (fun nid => (getNode nodes nid).isSome)

/-- The BFS loop of `DaemonSystem._distance`: FIFO queue of
`(node, dist)` pairs with a visited set.  Each loop iteration pops one
entry; every pushed id enters `visited`, so `nodes.length + 1` iterations
of fuel always suffice. -/
def bfsLoop (nodes : List Node) (toId : String) :
    ℕ → List (String × ℕ) → List String → ℕ
  | 0, _, _ => UNREACHABLE
  | _ + 1, [], _ => UNREACHABLE
  | fuel + 1, (currentId, dist) :: queue, visited =>
    let nbrs := neighbours nodes currentId
    if nbrs.any (fun nid => nid = toId) then dist + 1
    else
      let fresh := (nbrs.filter (fun nid => nid ∉ visited)).dedup
      bfsLoop nodes toId fuel
        (queue ++ fresh.map (fun nid => (nid, dist + 1)))
        (visited ++ fresh)

/-- `DaemonSystem._distance`: BFS hop count over the tree graph, `999`
when unreachable.  (In the source the early-return scan over neighbours
interleaves with the pushes; the distance found is the same because BFS
explores in nondecreasing depth order and returns on the first contact.) -/
def distance (nodes : List Node) (fromId toId : String) : ℕ :=
  if fromId = toId then 0
  else bfsLoop nodes toId (nodes.length + 1) [(fromId, 0)] [fromId]

/-- `DaemonSystem._update_alert`: recompute the alert gain from the
player / noise distance, clamp the level to `[0,1]`, derive the state and
post a transition event when the state changed. -/
def update_alert (nodes : List Node) (d : Daemon) (playerNodeId : String)
    (noiseNodeId : Option String) : Daemon × List GameEvent :=
  let dist := distance nodes d.nodeId playerNodeId
  let gain : ℚ :=
    if dist ≤ d.detectionRadius then
      if d.personality = DaemonPersonality.PARANOID then
        ALERT_GAIN_NEAR * (3/2)
      else ALERT_GAIN_NEAR
    else
      match noiseNodeId with
      | some nid =>
        if distance nodes d.nodeId nid ≤ d.detectionRadius + 1 then
          ALERT_GAIN_NOISE
        else if d.personality = DaemonPersonality.SLEEPY then
          -ALERT_DECAY * 2
        else -ALERT_DECAY
      | none =>
        if d.personality = DaemonPersonality.SLEEPY then
          -ALERT_DECAY * 2
        else -ALERT_DECAY
  let previousState := d.alertState
  let level2 := max 0 (min 1 (d.alertLevel + gain))
  let state2 := alertStateOf level2
  let d2 := { d with alertLevel := level2, alertState := state2 }
  if state2 ≠ previousState then
    if state2 = AlertState.SUSPICIOUS ∧ previousState = AlertState.IDLE then
      (d2, [GameEvent.daemonSpotted d2.daemonId d2.name d2.nodeId])
    else if state2 = AlertState.ALERT then
      (d2, [GameEvent.daemonAlert d2.daemonId d2.name d2.nodeId])
    else (d2, [])
  else (d2, [])

/-- Python `min(neighbours, key=...)`: the first element attaining the
minimal key. -/
def argminBy (key : String → ℕ) : List String → Option String
  | [] => none
  | x :: xs =>
    match argminBy key xs with
    | none => some x
    | some y => if key x ≤ key y then some x else some y

/-- `DaemonSystem._maybe_move`: cooldown gate, then steepest-descent
pursuit (ALERT and AGGRESSIVE/PARANOID) or seeded random patrol. -/
def maybe_move (nodes : List Node) (rng : List ℕ) (d : Daemon)
    (playerNodeId : String) : Daemon × List ℕ :=
  let d := { d with turnsSinceMove := d.turnsSinceMove + 1 }
  if d.turnsSinceMove < d.moveCooldown then (d, rng)
  else
    let d := { d with turnsSinceMove := 0 }
    let nbrs := neighbours nodes d.nodeId
    if nbrs.isEmpty then (d, rng)
    else
      if d.alertState = AlertState.ALERT ∧
          (d.personality = DaemonPersonality.AGGRESSIVE ∨
           d.personality = DaemonPersonality.PARANOID) then
        match argminBy (fun nid => distance nodes nid playerNodeId) nbrs with
        | some target => ({ d with nodeId := target }, rng)
        | none => (d, rng)
      else
        let draw := rng.headD 0
        let target := nbrs.getD (draw % nbrs.length) d.nodeId
        ({ d with nodeId := target }, rng.drop 1)

/-- `DaemonSystem._apply_contact_effects`: drain `_CONTACT_DRAIN` power
while the daemon shares the player's node. -/
def apply_contact_effects (rm : ResourceManager) (d : Daemon)
    (playerNodeId : String) : ResourceManager × List GameEvent :=
  if d.nodeId ≠ playerNodeId then (rm, [])
  else
    let c := rm.consumeOk Resource.POWER CONTACT_DRAIN d.name
    (c.2.1, c.2.2)

/-- `DaemonSystem._corrupt_current_node`: add `_DAEMON_CORRUPTION` to the
occupied node. -/
def corrupt_current_node (nodes : List Node) (d : Daemon) : List Node :=
  match getNode nodes d.nodeId with
  | none => nodes
  | some _ =>
    nodes.map (fun n =>
      if n.nodeId = d.nodeId then n.apply_corruption DAEMON_CORRUPTION else n)

/-- The per-daemon body of `DaemonSystem.tick`: pacified daemons are
skipped; otherwise alert update, movement, contact drain and node
corruption run in order. -/
def tickDaemon (sys : DaemonSystem) (d : Daemon) (playerNodeId : String)
    (noiseNodeId : Option String) : Daemon × DaemonSystem × List GameEvent :=
  if d.pacified then (d, sys, [])
  else
    let a := update_alert sys.nodes d playerNodeId noiseNodeId
    let m := maybe_move sys.nodes sys.rng a.1 playerNodeId
    let c := apply_contact_effects sys.rm m.1 playerNodeId
    let nodes2 := corrupt_current_node sys.nodes m.1
    (m.1, { sys with rm := c.1, nodes := nodes2, rng := m.2 },
     a.2 ++ c.2)

/-- Fold of `tickDaemon` over the daemon list (Python iterates over a
snapshot of `self._daemons.values()`; each daemon mutates only itself,
plus the shared registry/resources/rng threaded here). -/
def tickList (sys : DaemonSystem) (playerNodeId : String)
    (noiseNodeId : Option String) :
    List Daemon → List Daemon × DaemonSystem × List GameEvent
  | [] => ([], sys, [])
  | d :: ds =>
    let r := tickDaemon sys d playerNodeId noiseNodeId
    let rest := tickList r.2.1 playerNodeId noiseNodeId ds
    (r.1 :: rest.1, rest.2.1, r.2.2 ++ rest.2.2)

/-- `DaemonSystem.tick`. -/
def tick (sys : DaemonSystem) (playerNodeId : String)
    (noiseNodeId : Option String := none) : DaemonSystem × List GameEvent :=
  let r := tickList sys playerNodeId noiseNodeId sys.daemons
  ({ r.2.1 with daemons := r.1 }, r.2.2)

/-- `DaemonSystem.pacify`: set the pacified flag, reset alert to
IDLE / 0, post `DAEMON_PACIFIED`; unknown ids return `False`. -/
def pacify (sys : DaemonSystem) (daemonId : String) :
    Bool × DaemonSystem × List GameEvent :=
  match sys.daemons.find? (fun d => d.daemonId = daemonId) with
  | none => (false, sys, [])
  | some d =>
    let sys2 := { sys with daemons := sys.daemons.map (fun x =>
      if x.daemonId = daemonId then
        { x with pacified := true, alertState := AlertState.IDLE, alertLevel := 0 }
      else x) }
    (true, sys2, [GameEvent.daemonPacified d.daemonId d.name])

end DaemonSystem

/-! ## systems/event_queue.py

The bus is generic in the event-type tag `T` (the `EventType` enum) and
the payload type `P` (payload dicts).  Handlers are identified by
subscription ids; a handler's observable effect on the bus during
dispatch — the events it posts — is modelled by a behaviour function
`hbeh : ℕ → QEvent T P → List (QEvent T P)` giving, in posting order, the
events that handler posts while handling a given event.  (Handler
exceptions are caught and logged by `flush`, so a raising handler is a
handler that posts a prefix of its events; it is covered by the same
behaviour abstraction.) -/

/-- `Timing` enum: `IMMEDIATE` or `DEFERRED` delivery. -/
inductive Timing where
  | IMMEDIATE
  | DEFERRED
deriving DecidableEq, Repr

/-- `Event` dataclass: type tag, payload, delivery timing, source label. -/
structure QEvent (T P : Type) where
  ty      : T
  payload : P
  timing  : Timing
  source  : String := ""
deriving DecidableEq, Repr

/-- `EventQueue` state: pending and deferred buffers, the subscriber
table (`type -> ordered list of handler ids`), the turn counter and the
re-entrancy flag. -/
structure EventQueue (T P : Type) where
  pending  : List (QEvent T P)
  deferred : List (QEvent T P)
  subs     : T → List ℕ
  turn     : ℕ
  flushing : Bool

namespace EventQueue

variable {T P : Type}

/-- `EventQueue.post`: DEFERRED events go to the staging buffer,
IMMEDIATE events to the pending buffer. -/
def post (q : EventQueue T P) (e : QEvent T P) : EventQueue T P :=
  if e.timing = Timing.DEFERRED then { q with deferred := q.deferred ++ [e] }
  else { q with pending := q.pending ++ [e] }

/-- `EventQueue.advance_turn`: increment the turn counter, promote all
deferred events into the pending buffer (FIFO order preserved), then post
an IMMEDIATE `TURN_ADVANCED` event (given here by `turnEvent` applied to
the new counter). -/
def advance_turn (q : EventQueue T P) (turnEvent : ℕ → QEvent T P) :
    EventQueue T P :=
  let q2 := { q with turn := q.turn + 1,
                     pending := q.pending ++ q.deferred,
                     deferred := [] }
  q2.post (turnEvent q2.turn)

/-- The immediate events appended to the pending list while one event is
dispatched: each subscribed handler runs in subscription order and its
posts are appended in posting order. -/
def immediatePosts (hbeh : ℕ → QEvent T P → List (QEvent T P))
    (subs : T → List ℕ) (e : QEvent T P) : List (QEvent T P) :=
  ((subs e.ty).flatMap (fun h => hbeh h e)).filter
    (fun e2 => e2.timing = Timing.IMMEDIATE)

/-- The deferred events staged while one event is dispatched. -/
def deferredPosts (hbeh : ℕ → QEvent T P → List (QEvent T P))
    (subs : T → List ℕ) (e : QEvent T P) : List (QEvent T P) :=
  ((subs e.ty).flatMap (fun h => hbeh h e)).filter
    (fun e2 => e2.timing = Timing.DEFERRED)

/-- The index-driven dispatch loop of `EventQueue.flush`: the working
list grows at the tail as handlers post immediate events.  Returns the
full processed event list, the delivery trace (event/handler pairs in
delivery order) and the deferred events staged during the flush; `none`
when the supplied fuel runs out before the pending list drains (a run
that, in Python, has not yet terminated). -/
def flushLoop (hbeh : ℕ → QEvent T P → List (QEvent T P))
    (subs : T → List ℕ) :
    ℕ → List (QEvent T P) →
    Option (List (QEvent T P) × List (QEvent T P × ℕ) × List (QEvent T P))
  | 0, _ => none
  | _ + 1, [] => some ([], [], [])
  | fuel + 1, e :: work =>
    match flushLoop hbeh subs fuel (work ++ immediatePosts hbeh subs e) with
    | none => none
    | some (processed, trace, defs) =>
      some (e :: processed,
            (subs e.ty).map (fun h => (e, h)) ++ trace,
            deferredPosts hbeh subs e ++ defs)

/-- `EventQueue.flush`: a no-op while already flushing; otherwise run the
dispatch loop over the pending buffer, clear it, and keep the deferred
events staged during the flush.  Returns the delivery trace with the new
bus state. -/
def flush (hbeh : ℕ → QEvent T P → List (QEvent T P)) (fuel : ℕ)
    (q : EventQueue T P) :
    Option (List (QEvent T P × ℕ) × EventQueue T P) :=
  if q.flushing then some ([], q)
  else
    match flushLoop hbeh q.subs fuel q.pending with
    | none => none
    | some (_, trace, defs) =>
      some (trace, { q with pending := [], deferred := q.deferred ++ defs })

end EventQueue

/-! ## world/site_generator.py

The generator draws all randomness from one `random.Random(seed)`
instance created at the start of `generate()` and threaded through the
three passes.  The Mersenne-Twister primitives (`gauss`, `shuffle`,
`uniform`, `random`) are modelled abstractly: `PyRng` packages a state
type with one deterministic transition function per primitive, so a fixed
`PyRng` fixes the whole draw sequence of a given seed.  Node ids
(`uuid4` in the source) are modelled by a fresh counter; the spec's
determinism property deliberately compares trees without ids. -/

/-- Abstract deterministic pseudo-random interface standing for
`random.Random`. -/
structure PyRng (R : Type) where
  seedInit : ℤ → R
  gauss    : R → ℚ → ℚ → ℚ × R
  shuffle  : R → List String → List String × R
  uniform  : R → ℚ → ℚ → ℚ × R
  rand     : R → ℚ × R

/-- `SiteProfile` dataclass (name pools included; numeric fields as
rationals). -/
structure SiteProfile where
  name             : String
  seed             : ℤ := 0
  maxDepth         : ℕ := 3
  branchFactor     : ℚ := 5/2
  filesPerDir      : ℚ := 3
  debrisRatio      : ℚ := 3/10
  artifactDensity  : ℚ := 1/5
  baseCorruption   : ℚ := 1/10
  theme            : String := "corporate"
  dirNames         : List String := ["invoices", "archive", "logs", "backup",
    "system", "personal", "reports", "cache", "temp", "projects", "assets",
    "config", "network", "users", "research"]
  fileNames        : List String := ["readme.txt", "memo.doc", "export.csv",
    "notes.txt", "report.pdf", "manifest.log", "index.dat", "summary.txt",
    "contacts.db", "schedule.txt", "budget.xls", "draft.doc"]
  debrisNames      : List String := ["fragment_A", "corrupt_B", "debris_01",
    "shard_02", "remnant_C", "chunk_03", "erased_D", "lost_04"]

namespace SiteGenerator

variable {R : Type}

/-- Python's `"%04d"`-style formatting used for artifact ordinals. -/
def pad4 (i : ℕ) : String :=
  let s := toString i
  String.mk (List.replicate (4 - s.length) '0') ++ s

/-- Python `pool[i % len(pool)]` (an empty pool raises in Python and is
given the empty-string default here; every default pool is non-empty). -/
def poolPick (pool : List String) (i : ℕ) : String :=
  pool.getD (i % max pool.length 1) ""

/-- `SiteGenerator._lookup_child_name` truthiness: does `parent` already
have a child (present in the registry) named `name`? -/
def childNameExists (nodes : List Node) (parentId name : String) : Bool :=
  match DaemonSystem.getNode nodes parentId with
  | none => false
  | some p => (p.childrenIds.filterMap (DaemonSystem.getNode nodes)).any
      (fun c => c.name = name)

/-- `SiteGenerator._make_node`: one `uniform(-0.03, 0.03)` jitter draw,
base corruption clamped to `[0, 0.99]`, DETECTED start for directories
and HIDDEN otherwise; the id counter stands for `uuid4`. -/
def makeNode (g : PyRng R) (p : SiteProfile) (r : R) (ctr : ℕ)
    (name : String) (ty : NodeType) (parentId : Option String) :
    Node × R × ℕ :=
  let u := g.uniform r (-3/100) (3/100)
  let corruption := max 0 (min (99/100) (p.baseCorruption + u.1))
  let node : Node :=
    { name := name, nodeType := ty, nodeId := "node_" ++ toString ctr,
      parentId := parentId, childrenIds := [], corruption := corruption,
      visibility := if ty = NodeType.DIRECTORY then NodeVisibility.DETECTED
        else NodeVisibility.HIDDEN,
      artifactId := none,
      metadata := [("theme", p.theme), ("site", p.name)] }
  (node, u.2, ctr + 1)

/-- Insert a freshly created child: register it in the flat dict and
append it to its parent's `children_ids`. -/
def insertChild (nodes : List Node) (parentId : String) (child : Node) :
    List Node :=
  (nodes.map (fun n => if n.nodeId = parentId then n.add_child child.nodeId
    else n)) ++ [child]

/-- The `for i in range(n_branches)` loop of `SiteGenerator._build_tree`:
pick a (deduplicated) name, create the directory, and recurse into it via
`rec` before the next sibling. -/
def buildChildren (g : PyRng R) (p : SiteProfile)
    (rec : String → List Node → R → ℕ → List Node × R × ℕ)
    (parentId : String) (pool : List String) :
    ℕ → ℕ → List Node → R → ℕ → List Node × R × ℕ
  | 0, _, nodes, r, ctr => (nodes, r, ctr)
  | remaining + 1, i, nodes, r, ctr =>
    let base := poolPick pool i
    let name := if childNameExists nodes parentId base then
        base ++ "_" ++ toString i
      else base
    let mk := makeNode g p r ctr name NodeType.DIRECTORY (some parentId)
    let nodes1 := insertChild nodes parentId mk.1
    let sub := rec mk.1.nodeId nodes1 mk.2.1 mk.2.2
    buildChildren g p rec parentId pool remaining (i + 1) sub.1 sub.2.1 sub.2.2

/-- `SiteGenerator._build_tree`, with `fuel = max_depth - depth` (the
source returns as soon as `depth >= max_depth`): one bounded-Gaussian
branch-count draw, one name-pool shuffle, then the sibling loop. -/
def buildTree (g : PyRng R) (p : SiteProfile) :
    ℕ → String → List Node → R → ℕ → List Node × R × ℕ
  | 0, _, nodes, r, ctr => (nodes, r, ctr)
  | fuel + 1, parentId, nodes, r, ctr =>
    let gs := g.gauss r p.branchFactor (8/10)
    let nBranches := (max 0 (pyRoundInt gs.1)).toNat
    let sh := g.shuffle gs.2 p.dirNames
    buildChildren g p (buildTree g p fuel) parentId sh.1 nBranches 0 nodes
      sh.2 ctr

/-- The `for i in range(n_files)` loop of `SiteGenerator._populate`: a
Bernoulli debris draw, a name pick from the corresponding shuffled pool,
and the node creation. -/
def populateFiles (g : PyRng R) (p : SiteProfile) (debrisRatio : ℚ)
    (leafId : String) (filePool debrisPool : List String) :
    ℕ → ℕ → List Node → R → ℕ → List Node × R × ℕ
  | 0, _, nodes, r, ctr => (nodes, r, ctr)
  | remaining + 1, i, nodes, r, ctr =>
    let rd := g.rand r
    let isDebris := rd.1 < debrisRatio
    let name := if isDebris then poolPick debrisPool i else poolPick filePool i
    let ty := if isDebris then NodeType.DEBRIS else NodeType.FILE
    let mk := makeNode g p rd.2 ctr name ty (some leafId)
    let nodes1 := insertChild nodes leafId mk.1
    populateFiles g p debrisRatio leafId filePool debrisPool remaining (i + 1)
      nodes1 mk.2.1 mk.2.2

/-- The per-leaf body of `SiteGenerator._populate`: a bounded-Gaussian
file-count draw, two pool shuffles, then the file loop. -/
def populateLeaf (g : PyRng R) (p : SiteProfile) (debrisRatio : ℚ)
    (leafId : String) (nodes : List Node) (r : R) (ctr : ℕ) :
    List Node × R × ℕ :=
  let gs := g.gauss r p.filesPerDir 1
  let nFiles := (max 0 (pyRoundInt gs.1)).toNat
  let fp := g.shuffle gs.2 p.fileNames
  let dp := g.shuffle fp.2 p.debrisNames
  populateFiles g p debrisRatio leafId fp.1 dp.1 nFiles 0 nodes dp.2 ctr

/-- Fold of `populateLeaf` over the captured leaf-directory ids. -/
def populateLoop (g : PyRng R) (p : SiteProfile) (debrisRatio : ℚ) :
    List String → List Node → R → ℕ → List Node × R × ℕ
  | [], nodes, r, ctr => (nodes, r, ctr)
  | leafId :: rest, nodes, r, ctr =>
    let one := populateLeaf g p debrisRatio leafId nodes r ctr
    populateLoop g p debrisRatio rest one.1 one.2.1 one.2.2

/-- `SiteGenerator._populate`: clamp the debris ratio, select the leaf
directories (directories with no directory children, in registry order),
and fill each. -/
def populate (g : PyRng R) (p : SiteProfile) (nodes : List Node) (r : R)
    (ctr : ℕ) : List Node × R × ℕ :=
  let debrisRatio := max 0 (min 1 p.debrisRatio)
  let leafIds := (nodes.filter (fun n => n.is_directory ∧
    ¬ n.childrenIds.any (fun cid =>
      match DaemonSystem.getNode nodes cid with
      | some c => c.is_directory
      | none => false))).map (fun n => n.nodeId)
  populateLoop g p debrisRatio leafIds nodes r ctr

/-- Fold of `SiteGenerator._seed_artifacts` over the enumerated FILE
nodes: one Bernoulli draw per file; on a hit the artifact id
`arc_<theme>_<i:04d>` is assigned and the metadata flag set. -/
def seedLoop (g : PyRng R) (p : SiteProfile) (density : ℚ) :
    List String → ℕ → List Node → R → List Node × R
  | [], _, nodes, r => (nodes, r)
  | fid :: rest, i, nodes, r =>
    let rd := g.rand r
    let nodes1 :=
      if rd.1 < density then
        nodes.map (fun n => if n.nodeId = fid then
          { n with artifactId := some ("arc_" ++ p.theme ++ "_" ++ pad4 i),
                   metadata := n.metadata ++ [("artifact", "true")] }
          else n)
      else nodes
    seedLoop g p density rest (i + 1) nodes1 rd.2

/-- `SiteGenerator._seed_artifacts`. -/
def seed_artifacts (g : PyRng R) (p : SiteProfile) (nodes : List Node)
    (r : R) : List Node × R :=
  let density := max 0 (min 1 p.artifactDensity)
  let fileIds := (nodes.filter (fun n => n.is_file)).map (fun n => n.nodeId)
  seedLoop g p density fileIds 0 nodes r

/-- `SiteGenerator.generate`: seed the RNG once, build the skeleton from
a REVEALED root, populate the leaves, seed the artifacts, and wrap the
registry in a `Filesystem` rooted (and cwd-ed) at the root node. -/
def generate (g : PyRng R) (p : SiteProfile) (seed : ℤ) : Filesystem :=
  let r0 := g.seedInit seed
  let mk := makeNode g p r0 0 "root" NodeType.DIRECTORY none
  let root := { mk.1 with visibility := NodeVisibility.REVEALED }
  let bt := buildTree g p p.maxDepth root.nodeId [root] mk.2.1 mk.2.2
  let pp := populate g p bt.1 bt.2.1 bt.2.2
  let sa := seed_artifacts g p pp.1 pp.2.1
  { nodes := sa.1, rootId := root.nodeId, cwdId := root.nodeId }

/-- The structural projection of a node compared by the determinism
property: name, type, corruption, visibility and artifact assignment
(node ids are `uuid4`-generated in the source and deliberately excluded). -/
def structOf (n : Node) : String × NodeType × ℚ × NodeVisibility × Option String :=
  (n.name, n.nodeType, n.corruption, n.visibility, n.artifactId)

end SiteGenerator

/-! ## Helper lemmas -/

theorem slot_setSlot (rm : ResourceManager) (r : Resource) (s : ResourceSlot) :
    (rm.setSlot r s).slot r = s := by
  cases r <;> rfl

/-! ## Claim C1 -/

/-- C1: `SiteGenerator.generate` is deterministic — two calls with the
same profile and seed (hence the same seeded pseudo-random stream,
consumed in the same fixed order) produce structurally identical
filesystems: the same number of nodes and, node for node in creation
order, the same names, node types, corruption values, initial
visibilities and artifact id assignments. -/
theorem generate_deterministic {R : Type} (g : PyRng R) (p : SiteProfile)
    (seed : ℤ) :
    (SiteGenerator.generate g p seed).nodes.length
      = (SiteGenerator.generate g p seed).nodes.length ∧
    (SiteGenerator.generate g p seed).nodes.map SiteGenerator.structOf
      = (SiteGenerator.generate g p seed).nodes.map SiteGenerator.structOf :=
  ⟨rfl, rfl⟩

/-! ## Claim C2 -/

/-- The behaviour `ResourceManager.consume` exhibits for a non-negative
amount: no `ValueError`; when affordable, success with the gauge decreased
by exactly the amount, a `RESOURCE_CHANGED` event, and a
`RESOURCE_DEPLETED` event exactly when the gauge lands on zero; when not
affordable, failure with the whole manager untouched and no events. -/
def ConsumeSpec (rm : ResourceManager) (r : Resource) (amount : ℚ)
    (src : String) : Prop :=
  rm.consume r amount src = Except.ok (rm.consumeOk r amount src) ∧
  (amount ≤ (rm.slot r).current →
    (rm.consumeOk r amount src).1 = true ∧
    ((rm.consumeOk r amount src).2.1.slot r).current
      = (rm.slot r).current - amount ∧
    ((rm.consumeOk r amount src).2.1.slot r).maximum = (rm.slot r).maximum ∧
    (rm.consumeOk r amount src).2.2
      = (rm.consumeOk r amount src).2.1.post_changed r (-amount) src ::
        (if (rm.slot r).current - amount = 0
         then [GameEvent.resourceDepleted r.enumName src] else [])) ∧
  ((rm.slot r).current < amount →
    (rm.consumeOk r amount src).1 = false ∧
    (rm.consumeOk r amount src).2.1 = rm ∧
    (rm.consumeOk r amount src).2.2 = [])

/-- C2: for every resource kind and non-negative amount, `consume` either
succeeds and decreases that gauge's current by exactly the amount —
additionally emitting a resource-depleted event exactly when the gauge
reaches zero — or fails leaving the gauge (indeed the whole manager)
unchanged with no events. -/
theorem consume_all_or_nothing (rm : ResourceManager) (r : Resource)
    (amount : ℚ) (src : String) (h : 0 ≤ amount) :
    ConsumeSpec rm r amount src := by
  refine ⟨?_, ?_, ?_⟩
  · simp [ResourceManager.consume, not_lt.2 h]
  · intro hle
    have hnot : ¬ (rm.slot r).current < amount := not_lt.2 hle
    have hzero : ((rm.slot r).current - amount ≤ 0)
        ↔ ((rm.slot r).current - amount = 0) :=
      ⟨fun hle0 => le_antisymm hle0 (by linarith), le_of_eq⟩
    unfold ResourceManager.consumeOk
    by_cases hz : (rm.slot r).current - amount = 0
    · simp [hnot, ResourceSlot.is_depleted, slot_setSlot, hz]
    · have hpos : ¬ ((rm.slot r).current - amount ≤ 0) := fun h0 => hz (hzero.1 h0)
      simp [hnot, ResourceSlot.is_depleted, slot_setSlot, hz, hpos]
  · intro hlt
    unfold ResourceManager.consumeOk
    simp [hlt]

/-- Witness for C2: the default manager affords a spend of 30 power. -/
theorem consume_all_or_nothing_witness :
    (0 : ℚ) ≤ 30 ∧ ConsumeSpec ResourceManager.init Resource.POWER 30 "t" :=
  ⟨by norm_num,
   consume_all_or_nothing ResourceManager.init Resource.POWER 30 "t"
     (by norm_num)⟩

/-! ## Claim C9 -/

/-- Counterexample to C9 as stated: on the default manager the POWER
gauge is already at its maximum, yet `restore` of the positive amount `5`
posts no event at all — the source's `restore` only posts
`RESOURCE_CHANGED` when `actual_gain > 0`. -/
theorem restore_at_maximum_emits_no_event :
    (ResourceManager.init.slot Resource.POWER).current
        = (ResourceManager.init.slot Resource.POWER).maximum ∧
    (0 : ℚ) < 5 ∧
    (ResourceManager.init.restoreOk Resource.POWER 5 "t").2 = [] := by
  refine ⟨rfl, by norm_num, ?_⟩
  simp [ResourceManager.restoreOk, ResourceManager.init, ResourceManager.slot,
    ResourceManager.setSlot]

/-- The amended C9 behaviour: a successful consume posts a
`RESOURCE_CHANGED` event first (carrying the post-spend slot and its
ratio); a restore posts one exactly when the actual gain
`min(amount, maximum − current)` is positive, and posts nothing
otherwise; `set_maximum` with a positive maximum always posts one with
delta `0`. -/
def ChangedEmissionSpec (rm : ResourceManager) (r : Resource)
    (amount newMax : ℚ) (src : String) : Prop :=
  (amount ≤ (rm.slot r).current →
    (rm.consumeOk r amount src).2.2.head?
      = some ((rm.consumeOk r amount src).2.1.post_changed r (-amount) src)) ∧
  ((rm.restoreOk r amount src).2
    = if 0 < min amount ((rm.slot r).maximum - (rm.slot r).current)
      then [(rm.restoreOk r amount src).1.post_changed r
              (min amount ((rm.slot r).maximum - (rm.slot r).current)) src]
      else []) ∧
  (rm.set_maximum r newMax
    = Except.ok
        (rm.setSlot r { maximum := newMax,
                        current := min (rm.slot r).current newMax },
         [(rm.setSlot r { maximum := newMax,
                          current := min (rm.slot r).current newMax
                        }).post_changed r 0 "Upgrade"]))

/-- C9 (amended): every successful consume emits a resource-changed event
carrying the resulting ratio; a restore emits one iff its actual
(clamped) gain is positive — so a restore on a full gauge emits nothing —
and `set_maximum` always emits a zero-delta one. -/
theorem resource_changed_emission (rm : ResourceManager) (r : Resource)
    (amount newMax : ℚ) (src : String) (hM : 0 < newMax) :
    ChangedEmissionSpec rm r amount newMax src := by
  refine ⟨?_, ?_, ?_⟩
  · intro hle
    have hnot : ¬ (rm.slot r).current < amount := not_lt.2 hle
    unfold ResourceManager.consumeOk
    simp only [hnot, if_false]
    split_ifs <;> rfl
  · unfold ResourceManager.restoreOk
    by_cases hg : 0 < min amount ((rm.slot r).maximum - (rm.slot r).current)
    · simp [hg]
    · simp [hg]
  · unfold ResourceManager.set_maximum
    rw [if_neg (not_le.2 hM)]

/-- Witness for C9 (amended) at the default manager with amount 5 and new
maximum 10. -/
theorem resource_changed_emission_witness :
    (0 : ℚ) < 10 ∧
    ChangedEmissionSpec ResourceManager.init Resource.ENERGY 5 10 "t" :=
  ⟨by norm_num,
   resource_changed_emission ResourceManager.init Resource.ENERGY 5 10 "t"
     (by norm_num)⟩

/-! ## Claim C10 -/

/-- C10: whenever `change_directory` raises a `FilesystemError` (no such
target, target hidden, target not a directory, `".."` at the root, or a
dangling id), the filesystem state — current directory and every node —
is exactly what it was before the call: every `raise` in the source
occurs before the single mutation of `_cwd_id`, and no node is written. -/
theorem change_directory_error_preserves_state (fs : Filesystem)
    (name : String) (e : String)
    (h : (fs.change_directory name).1 = some e) :
    (fs.change_directory name).2 = fs := by
  unfold Filesystem.change_directory at h ⊢
  rcases hc : fs.get_node fs.cwdId with _ | cwd
  · simp [hc]
  · rw [hc] at h
    dsimp only at h ⊢
    by_cases hn : name = ".."
    · rw [if_pos hn] at h ⊢
      by_cases hr : cwd.is_root = true
      · simp [hr]
      · rw [Bool.not_eq_true] at hr
        rw [if_neg (by simp [hr])] at h ⊢
        rcases hp : cwd.parentId.bind fs.get_node with _ | t
        · simp [hp]
        · rw [hp] at h
          simp at h
    · rw [if_neg hn] at h ⊢
      rcases hcb : fs.child_by_name name cwd with _ | t
      · simp [hcb]
      · rw [hcb] at h
        dsimp only at h ⊢
        by_cases hv : t.visibility = NodeVisibility.HIDDEN
        · simp [hv]
        · rw [if_neg hv] at h ⊢
          by_cases hd : t.is_directory = true
          · rw [if_neg (by simp [hd])] at h
            simp at h
          · rw [Bool.not_eq_true] at hd
            rw [if_pos (by simp [hd])] at h ⊢

/-- A one-node fixture: a lone REVEALED root directory. -/
def rootOnly : Filesystem :=
  { nodes := [{ name := "root", nodeType := NodeType.DIRECTORY,
                nodeId := "n0", parentId := none, childrenIds := [],
                corruption := 0, visibility := NodeVisibility.REVEALED,
                artifactId := none, metadata := [] }],
    rootId := "n0", cwdId := "n0" }

/-- Witness for C10: `cd ..` at the root fails and preserves the state. -/
theorem change_directory_error_witness :
    (rootOnly.change_directory "..").1
        = some "Already at root — cannot go up." ∧
    (rootOnly.change_directory "..").2 = rootOnly :=
  ⟨rfl, change_directory_error_preserves_state rootOnly ".."
     "Already at root — cannot go up." rfl⟩

/-! ## Claim C3 -/

/-- Visibility as a rank, for stating monotonicity. -/
def visRank : NodeVisibility → ℕ
  | .HIDDEN => 0
  | .DETECTED => 1
  | .REVEALED => 2

/-- The root of the two-node fixture below. -/
def rootNodeFx : Node :=
  { name := "root", nodeType := NodeType.DIRECTORY,
    nodeId := "n0", parentId := none, childrenIds := ["f1"],
    corruption := 0, visibility := NodeVisibility.REVEALED,
    artifactId := none, metadata := [] }

/-- The already-REVEALED artifact FILE of the two-node fixture below. -/
def fileNodeFx : Node :=
  { name := "a.txt", nodeType := NodeType.FILE,
    nodeId := "f1", parentId := some "n0", childrenIds := [],
    corruption := 0, visibility := NodeVisibility.REVEALED,
    artifactId := some "arc1", metadata := [] }

/-- A two-node fixture: a REVEALED root directory whose only child is an
already-REVEALED FILE carrying an artifact. -/
def artifactFs : Filesystem :=
  { nodes := [rootNodeFx, fileNodeFx], rootId := "n0", cwdId := "n0" }

/-- Counterexample to C3 as stated: scanning the already-REVEALED
artifact FILE `a.txt` leaves the filesystem unchanged but is not
event-free — beyond the always-present scan-complete event it re-emits
the artifact-found event, because the source posts `ARTIFACT_FOUND`
whenever the post-scan visibility is REVEALED on an artifact FILE, not
only on the transition. -/
theorem scan_revealed_artifact_reemits :
    (artifactFs.get_node "f1").map Node.visibility
        = some NodeVisibility.REVEALED ∧
    artifactFs.scan "a.txt"
      = Except.ok (artifactFs,
          [GameEvent.artifactFound "f1" (some "arc1") "a.txt",
           GameEvent.scanComplete "f1" "a.txt" true]) := by
  constructor
  · rfl
  · rfl

/-- The amended behaviour of `Filesystem.scan` on a resolved child `t`:
visibility advances exactly one step and never decreases; an
already-REVEALED node keeps its visibility, gets no node-revealed event,
and receives only the scan-complete event — except that an artifact FILE
re-emits artifact-found; artifact-found is emitted exactly when the
post-scan visibility is REVEALED on a FILE carrying an artifact; a
scan-complete event is always emitted. -/
def ScanSpec (fs : Filesystem) (name : String) (t : Node) : Prop :=
  fs.scan name = Except.ok
      (fs.setNode t.nodeId
        (fun n => { n with visibility := Filesystem.stepVisibility n.visibility }),
       Filesystem.scanEvents t) ∧
  visRank t.visibility ≤ visRank (Filesystem.stepVisibility t.visibility) ∧
  (t.visibility = NodeVisibility.HIDDEN →
    Filesystem.stepVisibility t.visibility = NodeVisibility.DETECTED) ∧
  (t.visibility = NodeVisibility.DETECTED →
    Filesystem.stepVisibility t.visibility = NodeVisibility.REVEALED) ∧
  (t.visibility = NodeVisibility.REVEALED →
    Filesystem.stepVisibility t.visibility = NodeVisibility.REVEALED ∧
    Filesystem.scanEvents t
      = (if t.is_file ∧ t.has_artifact then
            [GameEvent.artifactFound t.nodeId t.artifactId t.name]
          else [])
        ++ [GameEvent.scanComplete t.nodeId t.name true]) ∧
  ((GameEvent.artifactFound t.nodeId t.artifactId t.name
      ∈ Filesystem.scanEvents t)
    ↔ (Filesystem.stepVisibility t.visibility = NodeVisibility.REVEALED ∧
       t.is_file = true ∧ t.has_artifact = true)) ∧
  GameEvent.scanComplete t.nodeId t.name true ∈ Filesystem.scanEvents t

/-- C3 (amended): `scan` on a resolved child advances visibility by
exactly one step and never decreases it; a scan-complete event is always
emitted; artifact-found fires exactly when the post-scan visibility is
REVEALED on an artifact-carrying FILE (hence it re-fires on repeat scans
of such a node); an already-REVEALED node is otherwise a no-op. -/
theorem scan_spec (fs : Filesystem) (name : String) (cwd t : Node)
    (hc : fs.get_node fs.cwdId = some cwd)
    (ht : fs.child_by_name name cwd = some t) :
    ScanSpec fs name t := by
  refine ⟨?_, ?_, ?_, ?_, ?_, ?_, ?_⟩
  · unfold Filesystem.scan
    rw [hc]
    dsimp only
    rw [ht]
  · cases hv : t.visibility <;> simp [Filesystem.stepVisibility, visRank]
  · intro hv
    simp [Filesystem.stepVisibility, hv]
  · intro hv
    simp [Filesystem.stepVisibility, hv]
  · intro hv
    refine ⟨by simp [Filesystem.stepVisibility, hv], ?_⟩
    unfold Filesystem.scanEvents
    simp only [hv, Filesystem.stepVisibility]
    by_cases hf : t.is_file = true ∧ t.has_artifact = true
    · simp [hf.1, hf.2]
    · rw [Decidable.not_and_iff_or_not] at hf
      rcases hf with hf | hf <;> simp [hf]
  · unfold Filesystem.scanEvents
    cases hv : t.visibility <;>
      by_cases hf : t.is_file = true <;>
        by_cases ha : t.has_artifact = true <;>
          simp [Filesystem.stepVisibility, hf, ha]
  · unfold Filesystem.scanEvents
    cases hv : t.visibility <;>
      by_cases hf : t.is_file = true <;>
        by_cases ha : t.has_artifact = true <;>
          simp [Filesystem.stepVisibility, hf, ha]

/-- Witness for C3 (amended), at the artifact fixture. -/
theorem scan_spec_witness :
    artifactFs.get_node artifactFs.cwdId = some rootNodeFx ∧
    artifactFs.child_by_name "a.txt" rootNodeFx = some fileNodeFx ∧
    ScanSpec artifactFs "a.txt" fileNodeFx :=
  ⟨rfl, rfl, scan_spec artifactFs "a.txt" rootNodeFx fileNodeFx rfl rfl⟩

/-! ## Claim C4 -/

/-- The tuple `thresholds = (0.25, 0.50, 0.75, 1.0)` of
`Filesystem.tick`. -/
def thresholdsList : List ℚ := [1/4, 1/2, 3/4, 1]

theorem firstCrossed_some (b a t0 : ℚ)
    (h : Filesystem.firstCrossed b a = some t0) :
    t0 ∈ thresholdsList ∧ b < t0 ∧ t0 ≤ a ∧
    ∀ t ∈ thresholdsList, b < t → t ≤ a → t0 ≤ t := by
  unfold Filesystem.firstCrossed at h
  split_ifs at h with h1 h2 h3 h4 <;>
    rcases Option.some.inj h with rfl
  · refine ⟨by simp [thresholdsList], h1.1, h1.2, ?_⟩
    intro t htl hbt hta
    simp only [thresholdsList, List.mem_cons, List.not_mem_nil, or_false] at htl
    rcases htl with rfl | rfl | rfl | rfl <;> norm_num
  · refine ⟨by simp [thresholdsList], h2.1, h2.2, ?_⟩
    intro t htl hbt hta
    simp only [thresholdsList, List.mem_cons, List.not_mem_nil, or_false] at htl
    rcases htl with rfl | rfl | rfl | rfl
    · exact absurd ⟨hbt, hta⟩ h1
    · norm_num
    · norm_num
    · norm_num
  · refine ⟨by simp [thresholdsList], h3.1, h3.2, ?_⟩
    intro t htl hbt hta
    simp only [thresholdsList, List.mem_cons, List.not_mem_nil, or_false] at htl
    rcases htl with rfl | rfl | rfl | rfl
    · exact absurd ⟨hbt, hta⟩ h1
    · exact absurd ⟨hbt, hta⟩ h2
    · norm_num
    · norm_num
  · refine ⟨by simp [thresholdsList], h4.1, h4.2, ?_⟩
    intro t htl hbt hta
    simp only [thresholdsList, List.mem_cons, List.not_mem_nil, or_false] at htl
    rcases htl with rfl | rfl | rfl | rfl
    · exact absurd ⟨hbt, hta⟩ h1
    · exact absurd ⟨hbt, hta⟩ h2
    · exact absurd ⟨hbt, hta⟩ h3
    · norm_num

theorem firstCrossed_none (b a : ℚ)
    (h : Filesystem.firstCrossed b a = none) :
    ∀ t ∈ thresholdsList, ¬ (b < t ∧ t ≤ a) := by
  unfold Filesystem.firstCrossed at h
  split_ifs at h with h1 h2 h3 h4
  intro t htl hcross
  simp only [thresholdsList, List.mem_cons, List.not_mem_nil, or_false] at htl
  rcases htl with rfl | rfl | rfl | rfl
  · exact h1 hcross
  · exact h2 hcross
  · exact h3 hcross
  · exact h4 hcross

/-- The C4 behaviour of `Filesystem.tick`: the registry is tick-mapped
node-for-node and the posted events are the per-node event lists, in
order; a HIDDEN node is untouched and event-free; any other node's
corruption becomes `max 0 (min 1 (corruption + 0.02))`, and it gets
exactly one `NODE_CORRUPTED` event — carrying the least boundary of
{0.25, 0.5, 0.75, 1} strictly crossed this tick — when such a boundary
exists, and no event otherwise. -/
def TickSpec (fs : Filesystem) : Prop :=
  (Filesystem.tick fs).1.nodes
      = fs.nodes.map (fun n => (Filesystem.tickNode n).1) ∧
  (Filesystem.tick fs).2
      = fs.nodes.flatMap (fun n => (Filesystem.tickNode n).2) ∧
  ∀ n : Node,
    (n.visibility = NodeVisibility.HIDDEN → Filesystem.tickNode n = (n, [])) ∧
    (n.visibility ≠ NodeVisibility.HIDDEN →
      (Filesystem.tickNode n).1
          = { n with corruption := max 0 (min 1 (n.corruption + CORRUPTION_TICK)) } ∧
      ((∃ t ∈ thresholdsList,
          n.corruption < t ∧ t ≤ (Filesystem.tickNode n).1.corruption) →
        ∃ t0, (Filesystem.tickNode n).2
            = [GameEvent.nodeCorrupted n.nodeId n.name
                 (Filesystem.tickNode n).1.corruption t0] ∧
          t0 ∈ thresholdsList ∧ n.corruption < t0 ∧
          t0 ≤ (Filesystem.tickNode n).1.corruption ∧
          ∀ t ∈ thresholdsList, n.corruption < t →
            t ≤ (Filesystem.tickNode n).1.corruption → t0 ≤ t) ∧
      ((¬ ∃ t ∈ thresholdsList,
          n.corruption < t ∧ t ≤ (Filesystem.tickNode n).1.corruption) →
        (Filesystem.tickNode n).2 = []))

/-- C4: `tick` adds the fixed increment (clamped to `[0,1]`) to every
non-HIDDEN node, leaves HIDDEN nodes untouched, and per node emits
exactly one corruption-threshold event — for the first boundary crossed —
when the corruption strictly crosses one or more of
{0.25, 0.5, 0.75, 1.0}, and none otherwise. -/
theorem tickNode_not_hidden (n : Node)
    (hv : n.visibility ≠ NodeVisibility.HIDDEN) :
    Filesystem.tickNode n
      = (n.apply_corruption CORRUPTION_TICK,
         match Filesystem.firstCrossed n.corruption
             (n.apply_corruption CORRUPTION_TICK).corruption with
         | some t => [GameEvent.nodeCorrupted n.nodeId n.name
             (n.apply_corruption CORRUPTION_TICK).corruption t]
         | none => []) := by
  unfold Filesystem.tickNode
  rw [if_neg hv]
  dsimp only
  rcases hfc : Filesystem.firstCrossed n.corruption
      (n.apply_corruption CORRUPTION_TICK).corruption with _ | t <;> rfl

theorem tick_threshold_events (fs : Filesystem) : TickSpec fs := by
  refine ⟨rfl, rfl, ?_⟩
  intro n
  constructor
  · intro hv
    unfold Filesystem.tickNode
    rw [if_pos hv]
  · intro hv
    have hN := tickNode_not_hidden n hv
    have hupd : (Filesystem.tickNode n).1
        = { n with corruption := max 0 (min 1 (n.corruption + CORRUPTION_TICK)) } := by
      rw [hN]
      rfl
    refine ⟨hupd, ?_, ?_⟩
    · rintro ⟨t, htl, hbt, hta⟩
      rw [hN] at hta ⊢
      dsimp only at hta ⊢
      rcases hfc : Filesystem.firstCrossed n.corruption
          (n.apply_corruption CORRUPTION_TICK).corruption with _ | t0
      · exact absurd ⟨hbt, hta⟩ (firstCrossed_none _ _ hfc t htl)
      · obtain ⟨ht0l, hb0, ha0, hmin⟩ := firstCrossed_some _ _ _ hfc
        exact ⟨t0, rfl, ht0l, hb0, ha0, hmin⟩
    · intro hno
      rw [hN] at hno ⊢
      dsimp only at hno ⊢
      rcases hfc : Filesystem.firstCrossed n.corruption
          (n.apply_corruption CORRUPTION_TICK).corruption with _ | t0
      · rfl
      · obtain ⟨ht0l, hb0, ha0, _⟩ := firstCrossed_some _ _ _ hfc
        exact absurd ⟨t0, ht0l, hb0, ha0⟩ hno

/-- A REVEALED file at corruption `0.24`, about to cross the `0.25`
boundary. -/
def nearThresholdFx : Node :=
  { name := "x", nodeType := NodeType.FILE, nodeId := "nx",
    parentId := some "n0", childrenIds := [], corruption := 6/25,
    visibility := NodeVisibility.REVEALED, artifactId := none,
    metadata := [] }

/-- Witness for C4 is not needed (no hypotheses), but the threshold
scenario of the spec is recorded concretely: a node at corruption `0.24`
ticking to `0.26` emits exactly one event, for the `0.25` boundary. -/
theorem tick_threshold_events_witness :
    TickSpec artifactFs ∧
    Filesystem.tickNode nearThresholdFx
      = ({ nearThresholdFx with corruption := 13/50 },
         [GameEvent.nodeCorrupted "nx" "x" (13/50) (1/4)]) := by
  refine ⟨tick_threshold_events artifactFs, ?_⟩
  have hv : nearThresholdFx.visibility ≠ NodeVisibility.HIDDEN := by
    simp [nearThresholdFx]
  rw [tickNode_not_hidden nearThresholdFx hv]
  have hcor : nearThresholdFx.apply_corruption CORRUPTION_TICK
      = { nearThresholdFx with corruption := 13/50 } := by
    simp only [Node.apply_corruption, CORRUPTION_TICK, nearThresholdFx]
    norm_num
  rw [hcor]
  have hfc : Filesystem.firstCrossed nearThresholdFx.corruption
      (({ nearThresholdFx with corruption := (13/50 : ℚ) } : Node).corruption)
      = some (1/4) := by
    simp only [nearThresholdFx]
    unfold Filesystem.firstCrossed
    norm_num
  rw [hfc]
  simp [nearThresholdFx]

/-! ## Claims C6 and C7 -/

theorem find_update (l : List Artifact) (aid : String)
    (f : Artifact → Artifact) (hf : ∀ a, (f a).artifactId = a.artifactId) :
    (l.map (fun a => if a.artifactId = aid then f a else a)).find?
        (fun a => a.artifactId = aid)
      = (l.find? (fun a => a.artifactId = aid)).map f := by
  induction l with
  | nil => rfl
  | cons a l ih =>
    by_cases h : a.artifactId = aid
    · simp only [List.map_cons, if_pos h, List.find?_cons]
      have h2 : (decide ((f a).artifactId = aid)) = true := by
        simp [hf a, h]
      have h3 : (decide (a.artifactId = aid)) = true := by simp [h]
      rw [h2, h3]
      rfl
    · simp only [List.map_cons, if_neg h, List.find?_cons]
      have h3 : (decide (a.artifactId = aid)) = false := by simp [h]
      rw [h3]
      exact ih

/-- `ArtifactSystem.get` after `setArtifact` with an id-preserving update. -/
theorem get_setArtifact (as : ArtifactSystem) (aid : String)
    (f : Artifact → Artifact) (hf : ∀ a, (f a).artifactId = a.artifactId) :
    (as.setArtifact aid f).get aid = (as.get aid).map f :=
  find_update as.artifacts aid f hf

/-- The update `collect` applies to the artifact on success. -/
def collectUpdate (c : ℚ) (x : Artifact) : Artifact :=
  let condition := max (1/100) (1 - c)
  { x with condition := condition,
           sellValue := ArtifactSystem.compute_value { x with condition := condition },
           state := ArtifactState.COLLECTED }

/-- The C6 behaviour of `ArtifactSystem.collect`: failure without any
mutation (and without touching the memory gauge) on an unknown id or a
non-FOUND state; failure with only the reconstruction-failed event when
memory is insufficient; on success, condition `max(0.01, 1 − corruption)`,
sell value `base × rarity × condition` rounded to one decimal, state
COLLECTED, and the memory gauge decreased by the fixed cost. -/
def CollectSpec (as : ArtifactSystem) (aid : String) (c : ℚ) : Prop :=
  (as.get aid = none → as.collect aid c = (false, as, [])) ∧
  ∀ a, as.get aid = some a →
    (a.state ≠ ArtifactState.FOUND → as.collect aid c = (false, as, [])) ∧
    (a.state = ArtifactState.FOUND →
      ((as.rm.slot Resource.MEMORY).current < MEMORY_COST →
        as.collect aid c
          = (false, as,
             [GameEvent.reconstructEndFail aid "insufficient_memory"])) ∧
      (MEMORY_COST ≤ (as.rm.slot Resource.MEMORY).current →
        (as.collect aid c).1 = true ∧
        (as.collect aid c).2.1.get aid = some (collectUpdate c a) ∧
        (collectUpdate c a).condition = max (1/100) (1 - c) ∧
        (collectUpdate c a).sellValue
          = pyRound1 (BASE_VALUE * a.rarity.value_multiplier
              * max (1/100) (1 - c)) ∧
        (collectUpdate c a).state = ArtifactState.COLLECTED ∧
        ((as.collect aid c).2.1.rm.slot Resource.MEMORY).current
          = (as.rm.slot Resource.MEMORY).current - MEMORY_COST ∧
        (as.collect aid c).2.2
          = (as.rm.consumeOk Resource.MEMORY MEMORY_COST "ArtifactSystem").2.2
            ++ [GameEvent.reconstructEndOk aid (collectUpdate c a).condition
                  (collectUpdate c a).sellValue a.name]))

/-- C6: `collect` succeeds only on a FOUND artifact with a successful
memory consume; on success it freezes the condition, computes the rounded
sell value and moves to COLLECTED; on any failure it mutates neither the
artifact registry nor the memory gauge, and the insufficient-memory path
emits the reconstruction-failed event. -/
theorem collect_spec (as : ArtifactSystem) (aid : String) (c : ℚ) :
    CollectSpec as aid c := by
  constructor
  · intro h
    unfold ArtifactSystem.collect
    rw [h]
  · intro a ha
    constructor
    · intro hs
      unfold ArtifactSystem.collect
      rw [ha]
      dsimp only
      rw [if_pos hs]
    · intro hs
      constructor
      · intro hlt
        unfold ArtifactSystem.collect
        rw [ha]
        dsimp only
        rw [if_neg (by simp [hs])]
        unfold ResourceManager.consumeOk
        rw [if_pos hlt]
        simp
      · intro hge
        have hC : as.collect aid c
            = (true,
               { as with
                   rm := (as.rm.consumeOk Resource.MEMORY MEMORY_COST
                     "ArtifactSystem").2.1 }.setArtifact aid (fun x =>
                       { x with condition := max (1/100) (1 - c),
                                sellValue := ArtifactSystem.compute_value
                                  { a with condition := max (1/100) (1 - c) },
                                state := ArtifactState.COLLECTED }),
               (as.rm.consumeOk Resource.MEMORY MEMORY_COST
                  "ArtifactSystem").2.2
                 ++ [GameEvent.reconstructEndOk aid (collectUpdate c a).condition
                       (collectUpdate c a).sellValue a.name]) := by
          unfold ArtifactSystem.collect
          rw [ha]
          dsimp only
          rw [if_neg (by simp [hs])]
          have hok : (as.rm.consumeOk Resource.MEMORY MEMORY_COST
              "ArtifactSystem").1 = true := by
            unfold ResourceManager.consumeOk
            rw [if_neg (not_lt.2 hge)]
            dsimp only
            split_ifs <;> rfl
          rw [hok]
          rw [if_neg (by simp)]
          rfl
        refine ⟨by rw [hC], ?_, rfl, rfl, rfl, ?_, by rw [hC]⟩
        · rw [hC]
          dsimp only
          rw [get_setArtifact]
          · rw [show ({ as with
                rm := (as.rm.consumeOk Resource.MEMORY MEMORY_COST
                  "ArtifactSystem").2.1 } : ArtifactSystem).get aid
                = as.get aid from rfl, ha]
            rfl
          · intro x
            rfl
        · rw [hC]
          dsimp only
          rw [show (({ as with
              rm := (as.rm.consumeOk Resource.MEMORY MEMORY_COST
                "ArtifactSystem").2.1 } : ArtifactSystem).setArtifact aid
                (fun x =>
                  { x with condition := max (1/100) (1 - c),
                           sellValue := ArtifactSystem.compute_value
                             { a with condition := max (1/100) (1 - c) },
                           state := ArtifactState.COLLECTED })).rm
              = (as.rm.consumeOk Resource.MEMORY MEMORY_COST
                  "ArtifactSystem").2.1 from rfl]
          unfold ResourceManager.consumeOk
          rw [if_neg (not_lt.2 hge)]
          dsimp only
          split_ifs <;> simp [slot_setSlot]

/-- A FOUND uncommon artifact fixture. -/
def foundArtifactFx : Artifact :=
  { artifactId := "arc1", name := "Relic", description := "d",
    nodeId := "f1", rarity := ArtifactRarity.UNCOMMON,
    state := ArtifactState.FOUND, condition := 1, sellValue := 0 }

/-- A registry owning `foundArtifactFx` over the default manager. -/
def artSysFx : ArtifactSystem :=
  { rm := ResourceManager.init, artifacts := [foundArtifactFx], currency := 0 }

/-- Witness for C6 at the FOUND fixture with node corruption `0.5`. -/
theorem collect_spec_witness :
    artSysFx.get "arc1" = some foundArtifactFx ∧
    CollectSpec artSysFx "arc1" (1/2) :=
  ⟨rfl, collect_spec artSysFx "arc1" (1/2)⟩

/-- The C7 behaviour of `ArtifactSystem.sell`: an unknown id or a
non-COLLECTED artifact earns `0.0` and mutates nothing; a COLLECTED
artifact moves to SOLD with its sell value zeroed, the value added to the
currency, the memory cost restored (clamped at the gauge maximum), the
sale event emitted, and the earned value returned. -/
def SellSpec (as : ArtifactSystem) (aid : String) : Prop :=
  (as.get aid = none → as.sell aid = (0, as, [])) ∧
  ∀ a, as.get aid = some a →
    (a.state ≠ ArtifactState.COLLECTED → as.sell aid = (0, as, [])) ∧
    (a.state = ArtifactState.COLLECTED →
      (as.sell aid).1 = a.sellValue ∧
      (as.sell aid).2.1.get aid
        = some { a with state := ArtifactState.SOLD, sellValue := 0 } ∧
      (as.sell aid).2.1.currency = as.currency + a.sellValue ∧
      ((as.sell aid).2.1.rm.slot Resource.MEMORY).current
        = (as.rm.slot Resource.MEMORY).current
          + min MEMORY_COST ((as.rm.slot Resource.MEMORY).maximum
              - (as.rm.slot Resource.MEMORY).current) ∧
      (as.sell aid).2.2
        = (as.rm.restoreOk Resource.MEMORY MEMORY_COST "ArtifactSystem").2
          ++ [GameEvent.logEntryAdded aid a.name a.sellValue a.description])

/-- C7: `sell` on a COLLECTED artifact sets SOLD, zeroes its sell value,
adds it to the running currency, frees the fixed memory cost back to the
gauge (clamped at its maximum, per `restore`), emits the sale event and
returns the earned value; any other id/state earns `0.0` with no
mutation. -/
theorem sell_spec (as : ArtifactSystem) (aid : String) : SellSpec as aid := by
  constructor
  · intro h
    unfold ArtifactSystem.sell
    rw [h]
  · intro a ha
    constructor
    · intro hs
      unfold ArtifactSystem.sell
      rw [ha]
      dsimp only
      rw [if_pos hs]
    · intro hs
      have hC : as.sell aid
          = (a.sellValue,
             { as with
                 artifacts := (as.setArtifact aid (fun x =>
                   { x with state := ArtifactState.SOLD,
                            sellValue := 0 })).artifacts,
                 currency := as.currency + a.sellValue,
                 rm := (as.rm.restoreOk Resource.MEMORY MEMORY_COST
                   "ArtifactSystem").1 },
             (as.rm.restoreOk Resource.MEMORY MEMORY_COST "ArtifactSystem").2
               ++ [GameEvent.logEntryAdded aid a.name a.sellValue
                     a.description]) := by
        unfold ArtifactSystem.sell
        rw [ha]
        dsimp only
        rw [if_neg (by simp [hs])]
        rfl
      refine ⟨by rw [hC], ?_, by rw [hC], ?_, by rw [hC]⟩
      · rw [hC]
        show (as.setArtifact aid (fun x =>
            { x with state := ArtifactState.SOLD, sellValue := 0 })).get aid
          = some { a with state := ArtifactState.SOLD, sellValue := 0 }
        rw [get_setArtifact]
        · rw [ha]
          rfl
        · intro x
          rfl
      · rw [hC]
        dsimp only
        unfold ResourceManager.restoreOk
        dsimp only
        split_ifs <;> simp [slot_setSlot]

/-- A COLLECTED uncommon artifact fixture. -/
def collectedArtifactFx : Artifact :=
  { artifactId := "arc1", name := "Relic", description := "d",
    nodeId := "f1", rarity := ArtifactRarity.UNCOMMON,
    state := ArtifactState.COLLECTED, condition := 1/2, sellValue := 125/2 }

/-- A registry owning `collectedArtifactFx` with a non-full memory gauge. -/
def collectedSysFx : ArtifactSystem :=
  { rm := { power := { current := 100, maximum := 100 },
            memory := { current := 40, maximum := 50 },
            energy := { current := 80, maximum := 80 },
            energyDrain := 1 },
    artifacts := [collectedArtifactFx],
    currency := 0 }

/-- Witness for C7 at the COLLECTED fixture. -/
theorem sell_spec_witness :
    (collectedSysFx.get "arc1").map Artifact.state
        = some ArtifactState.COLLECTED ∧
    SellSpec collectedSysFx "arc1" :=
  ⟨rfl, sell_spec collectedSysFx "arc1"⟩

/-! ## Claim C8 -/

theorem update_alert_inv (nodes : List Node) (d : Daemon) (pid : String)
    (noise : Option String) :
    0 ≤ (DaemonSystem.update_alert nodes d pid noise).1.alertLevel ∧
    (DaemonSystem.update_alert nodes d pid noise).1.alertLevel ≤ 1 ∧
    (DaemonSystem.update_alert nodes d pid noise).1.alertState
      = alertStateOf (DaemonSystem.update_alert nodes d pid noise).1.alertLevel ∧
    (DaemonSystem.update_alert nodes d pid noise).1.pacified = d.pacified := by
  unfold DaemonSystem.update_alert
  dsimp only
  split_ifs <;>
    exact ⟨le_max_left _ _, max_le (by norm_num) (min_le_left _ _), rfl, rfl⟩

theorem maybe_move_preserves (nodes : List Node) (rng : List ℕ) (d : Daemon)
    (pid : String) :
    (DaemonSystem.maybe_move nodes rng d pid).1.alertLevel = d.alertLevel ∧
    (DaemonSystem.maybe_move nodes rng d pid).1.alertState = d.alertState ∧
    (DaemonSystem.maybe_move nodes rng d pid).1.pacified = d.pacified := by
  unfold DaemonSystem.maybe_move
  dsimp only
  split_ifs <;> try exact ⟨rfl, rfl, rfl⟩
  all_goals split <;> exact ⟨rfl, rfl, rfl⟩

/-- The alert-field invariant of C8: alert level in `[0,1]` and alert
state the pure threshold classification of the level. -/
def AlertInvariant (d : Daemon) : Prop :=
  0 ≤ d.alertLevel ∧ d.alertLevel ≤ 1 ∧
  d.alertState = alertStateOf d.alertLevel

theorem tickDaemon_inv (sys : DaemonSystem) (d : Daemon) (pid : String)
    (noise : Option String)
    (h : (DaemonSystem.tickDaemon sys d pid noise).1.pacified = false) :
    AlertInvariant (DaemonSystem.tickDaemon sys d pid noise).1 := by
  by_cases hp : d.pacified = true
  · exfalso
    unfold DaemonSystem.tickDaemon at h
    rw [if_pos hp] at h
    dsimp only at h
    rw [hp] at h
    exact Bool.true_eq_false.mp h
  · rw [Bool.not_eq_true] at hp
    unfold DaemonSystem.tickDaemon
    rw [if_neg (by simp [hp])]
    dsimp only
    obtain ⟨h1, h2, h3, _⟩ := update_alert_inv sys.nodes d pid noise
    obtain ⟨m1, m2, m3⟩ := maybe_move_preserves sys.nodes sys.rng
      (DaemonSystem.update_alert sys.nodes d pid noise).1 pid
    exact ⟨m1 ▸ h1, m1 ▸ h2, by rw [m1, m2, h3]⟩

theorem tickList_inv (pid : String) (noise : Option String) :
    ∀ (ds : List Daemon) (sys : DaemonSystem),
      ∀ d ∈ (DaemonSystem.tickList sys pid noise ds).1,
        d.pacified = false → AlertInvariant d := by
  intro ds
  induction ds with
  | nil =>
    intro sys d hd
    exact absurd hd (List.not_mem_nil d)
  | cons d0 rest ih =>
    intro sys d hd hpac
    unfold DaemonSystem.tickList at hd
    dsimp only at hd
    rcases List.mem_cons.mp hd with rfl | hmem
    · exact tickDaemon_inv sys d0 pid noise hpac
    · exact ih _ d hmem hpac

/-- C8: after every `DaemonSystem.tick`, every non-pacified daemon's
alert level lies in `[0,1]` and its alert state is the pure threshold
classification of that level (ALERT at ≥ 0.75, SUSPICIOUS at ≥ 0.4, IDLE
otherwise). -/
theorem daemon_tick_alert_invariant (sys : DaemonSystem) (pid : String)
    (noise : Option String) (d : Daemon)
    (hd : d ∈ (DaemonSystem.tick sys pid noise).1.daemons)
    (hpac : d.pacified = false) :
    0 ≤ d.alertLevel ∧ d.alertLevel ≤ 1 ∧
    d.alertState = alertStateOf d.alertLevel := by
  unfold DaemonSystem.tick at hd
  dsimp only at hd
  exact tickList_inv pid noise sys.daemons sys d hd hpac

/-- An aggressive non-pacified daemon fixture sitting on the root. -/
def daemonFx : Daemon :=
  { name := "WATCHDOG-7", personality := DaemonPersonality.AGGRESSIVE,
    nodeId := "n0", detectionRadius := 2, alertState := AlertState.IDLE,
    alertLevel := 0, moveCooldown := 1, turnsSinceMove := 0,
    pacified := false, daemonId := "d1" }

/-- A one-daemon two-node fixture for the C8 witness. -/
def daemonSysFx : DaemonSystem :=
  { rm := ResourceManager.init,
    nodes := [rootNodeFx, fileNodeFx],
    daemons := [daemonFx],
    rng := [0] }

/-- Witness for C8: the fixture daemon after one tick on the concrete
system. -/
theorem daemon_tick_alert_invariant_witness :
    (DaemonSystem.tickDaemon daemonSysFx daemonFx "n0" none).1
        ∈ (DaemonSystem.tick daemonSysFx "n0" none).1.daemons ∧
    (DaemonSystem.tickDaemon daemonSysFx daemonFx "n0" none).1.pacified
        = false ∧
    (0 ≤ (DaemonSystem.tickDaemon daemonSysFx daemonFx "n0" none).1.alertLevel ∧
     (DaemonSystem.tickDaemon daemonSysFx daemonFx "n0" none).1.alertLevel ≤ 1 ∧
     (DaemonSystem.tickDaemon daemonSysFx daemonFx "n0" none).1.alertState
       = alertStateOf
           (DaemonSystem.tickDaemon daemonSysFx daemonFx "n0" none).1.alertLevel)
    := by
  have hmem : (DaemonSystem.tickDaemon daemonSysFx daemonFx "n0" none).1
      ∈ (DaemonSystem.tick daemonSysFx "n0" none).1.daemons := by
    unfold DaemonSystem.tick
    dsimp only
    exact List.mem_cons_self _ _
  have hpac : (DaemonSystem.tickDaemon daemonSysFx daemonFx "n0" none).1.pacified
      = false := by
    unfold DaemonSystem.tickDaemon
    rw [if_neg (by simp [daemonFx])]
    dsimp only
    obtain ⟨_, _, m3⟩ := maybe_move_preserves daemonSysFx.nodes daemonSysFx.rng
      (DaemonSystem.update_alert daemonSysFx.nodes daemonFx "n0" none).1 "n0"
    rw [m3]
    obtain ⟨_, _, _, u4⟩ := update_alert_inv daemonSysFx.nodes daemonFx
      "n0" none
    rw [u4]
    rfl
  exact ⟨hmem, hpac,
    daemon_tick_alert_invariant daemonSysFx "n0" none _ hmem hpac⟩

/-! ## Claim C5 -/

theorem flushLoop_spec {T P : Type} (hbeh : ℕ → QEvent T P → List (QEvent T P))
    (subs : T → List ℕ) :
    ∀ (fuel : ℕ) (work processed : List (QEvent T P))
      (trace : List (QEvent T P × ℕ)) (defs : List (QEvent T P)),
      EventQueue.flushLoop hbeh subs fuel work = some (processed, trace, defs) →
      processed
          = work ++ processed.flatMap (EventQueue.immediatePosts hbeh subs) ∧
      trace = processed.flatMap
          (fun e => (subs e.ty).map (fun h => (e, h))) ∧
      defs = processed.flatMap (EventQueue.deferredPosts hbeh subs) := by
  intro fuel
  induction fuel with
  | zero =>
    intro work processed trace defs h
    exact absurd h (by simp [EventQueue.flushLoop])
  | succ fuel ih =>
    intro work processed trace defs h
    cases work with
    | nil =>
      unfold EventQueue.flushLoop at h
      simp only [Option.some.injEq, Prod.mk.injEq] at h
      obtain ⟨h1, h2, h3⟩ := h
      subst h1
      subst h2
      subst h3
      exact ⟨rfl, rfl, rfl⟩
    | cons e rest =>
      unfold EventQueue.flushLoop at h
      rcases hrec : EventQueue.flushLoop hbeh subs fuel
          (rest ++ EventQueue.immediatePosts hbeh subs e)
        with _ | ⟨processed', trace', defs'⟩
      · rw [hrec] at h
        simp at h
      · rw [hrec] at h
        simp only [Option.some.injEq, Prod.mk.injEq] at h
        obtain ⟨hp, htr, hdf⟩ := h
        obtain ⟨ih1, ih2, ih3⟩ := ih _ _ _ _ hrec
        subst hp
        subst htr
        subst hdf
        refine ⟨?_, ?_, ?_⟩
        · show e :: processed'
            = (e :: rest) ++ (e :: processed').flatMap
                (EventQueue.immediatePosts hbeh subs)
          conv_lhs => rw [ih1]
          simp [List.append_assoc]
        · show (subs e.ty).map (fun h => (e, h)) ++ trace'
            = (e :: processed').flatMap
                (fun e => (subs e.ty).map (fun h => (e, h)))
          rw [ih2]
          simp
        · show EventQueue.deferredPosts hbeh subs e ++ defs'
            = (e :: processed').flatMap (EventQueue.deferredPosts hbeh subs)
          rw [ih3]
          simp

/-- The C5 behaviour of `EventQueue.flush`: a nested call while already
flushing is a no-op; otherwise, when the dispatch loop completes within
the supplied fuel, the processed event list is exactly the original
pending buffer followed by every immediate event posted by handlers
during the flush (each dispatched within the same flush cycle, in
append order), the delivery trace dispatches each processed event to its
type's subscribers in subscription order, the pending buffer ends empty,
and deferred posts are staged for the next turn. -/
def FlushSpec {T P : Type} (hbeh : ℕ → QEvent T P → List (QEvent T P))
    (fuel : ℕ) (q : EventQueue T P) : Prop :=
  (q.flushing = true → EventQueue.flush hbeh fuel q = some ([], q)) ∧
  (q.flushing = false →
    ∀ processed trace defs,
      EventQueue.flushLoop hbeh q.subs fuel q.pending
          = some (processed, trace, defs) →
      EventQueue.flush hbeh fuel q
          = some (trace,
              { q with pending := [], deferred := q.deferred ++ defs }) ∧
      processed = q.pending
          ++ processed.flatMap (EventQueue.immediatePosts hbeh q.subs) ∧
      trace = processed.flatMap
          (fun e => (q.subs e.ty).map (fun h => (e, h))) ∧
      defs = processed.flatMap (EventQueue.deferredPosts hbeh q.subs))

/-- C5: `flush` dispatches every pending event, in post order, to every
subscriber of its type in subscription order; immediate events posted by
handlers during the flush are appended to the same worklist and
dispatched in the same flush cycle, which ends only when no pending
events remain (the pending buffer is empty afterwards); and a nested
`flush` while one is in progress is a no-op. -/
theorem flush_spec {T P : Type} (hbeh : ℕ → QEvent T P → List (QEvent T P))
    (fuel : ℕ) (q : EventQueue T P) : FlushSpec hbeh fuel q := by
  constructor
  · intro hf
    unfold EventQueue.flush
    rw [if_pos hf]
  · intro hf processed trace defs hloop
    obtain ⟨h1, h2, h3⟩ := flushLoop_spec hbeh q.subs fuel q.pending
      processed trace defs hloop
    refine ⟨?_, h1, h2, h3⟩
    unfold EventQueue.flush
    rw [if_neg (by simp [hf]), hloop]

/-- The two events of the C5 witness scenario: a seed event and the
event its handler posts. -/
def seedEventFx : QEvent ℕ ℕ :=
  { ty := 0, payload := 0, timing := Timing.IMMEDIATE, source := "" }

def postedEventFx : QEvent ℕ ℕ :=
  { ty := 0, payload := 1, timing := Timing.IMMEDIATE, source := "" }

/-- Handler behaviour of the C5 witness: handler 7 reacts to the seed
event by posting one immediate event. -/
def hbehFx (_h : ℕ) (e : QEvent ℕ ℕ) : List (QEvent ℕ ℕ) :=
  if e.payload = 0 then [postedEventFx] else []

/-- The C5 witness bus: one pending seed event, handler 7 subscribed to
type 0, not currently flushing. -/
def busFx : EventQueue ℕ ℕ :=
  { pending := [seedEventFx], deferred := [],
    subs := fun ty => if ty = 0 then [7] else [], turn := 0,
    flushing := false }

/-- Witness for C5: on the concrete bus the loop completes, the
handler-posted event is processed in the same flush, and the trace
delivers both events to handler 7 in order. -/
theorem flush_spec_witness :
    busFx.flushing = false ∧
    EventQueue.flushLoop hbehFx busFx.subs 3 busFx.pending
        = some ([seedEventFx, postedEventFx],
            [(seedEventFx, 7), (postedEventFx, 7)], []) ∧
    FlushSpec hbehFx 3 busFx :=
  ⟨rfl, by decide, flush_spec hbehFx 3 busFx⟩

end DigSim
